import Mathlib

/-!
# Verification of the Livisi connection core

A shallow embedding, in Lean 4, of the connection/session/synchronization
core of the `livisi_unofficial` integration:

* `livisi_connector.py` — token refresh, authorized requests, the device
  catalog builder, message parsing and the command surface;
* `livisi_websocket.py` — the push (websocket) channel,
  frame processing and the close callback discipline;
* `coordinator.py` — the polling coordinator, the reachability dispatches
  and the websocket supervision loop.

Asynchronous Python is rendered as pure state-passing functions:
`Except` models raised exceptions, `Option` models Python `None`,
association lists model `dict`, and response sequences of the hub are
supplied as explicit inputs.  Counters (number of sends, logins,
refreshes, callback invocations) are ghost instrumentation used to state
"exactly once" properties.
-/

namespace Livisi

/-- Exceptions of the Livisi layer (`livisi_errors.py` plus the Python
runtime errors that the connector code can raise). -/
inductive LivErr where
  | shcUnreachable
  | wrongCredentials
  | incorrectIp
  | livisiGeneric
  | errorCode (n : Int)
  | updateFailed
  | parserError
  | keyError
  | nameError
  | serverDisconnected
deriving DecidableEq, Repr

/-- A JSON response body from the hub: either `None` (no body) or a dict.
Only the `errorcode` key is inspected by `_async_request`;
`errorcode = none` models a dict without the `"errorcode"` key. -/
inductive HubResponse where
  | noBody
  | body (errorcode : Option Int)
deriving DecidableEq, Repr

/-- `"errorcode" in response` together with `response.get("errorcode")`:
`some n` iff the response is a dict that has the `errorcode` key. -/
def HubResponse.errorcodeOf : HubResponse → Option Int
  | .noBody => none
  | .body ec => ec

deriving instance DecidableEq for Except

/-- Result of `_async_request`: the outcome plus ghost counters for the
number of `_async_send_request` calls and of `_async_refresh_token` calls. -/
structure ReqResult where
  outcome : Except LivErr HubResponse
  sends : Nat
  refreshes : Nat
deriving DecidableEq, Repr

/-- `LivisiConnection._async_request`.  `tokenExpired` is the proactive
check on the decoded JWT expiry (`exp > 0 and time.time() >= exp`);
`send1` and `send2` are the outcomes the hub would give to the first and
to the retried `_async_send_request` call. -/
def asyncRequest (tokenExpired : Bool) (send1 send2 : Except LivErr HubResponse) :
    ReqResult :=
  let pre : Nat := if tokenExpired then 1 else 0
  match send1 with
  | .error e => ⟨.error e, 1, pre⟩
  | .ok r1 =>
    match r1.errorcodeOf with
    | some ec =>
      if ec = 2007 then
        -- refresh the token and retry the original request once
        match send2 with
        | .error e => ⟨.error e, 2, pre + 1⟩
        | .ok r2 =>
          match r2.errorcodeOf with
          | some retryEc => ⟨.error (.errorCode retryEc), 2, pre + 1⟩
          | none => ⟨.ok r2, 2, pre + 1⟩
      else
        ⟨.error (.errorCode ec), 1, pre⟩
    | none => ⟨.ok r1, 1, pre⟩

/-- One pass of `LivisiConnection._async_refresh_token` inside the
token-refresh lock: `state` is `self.token` at lock acquisition,
`observed` is the `expired_token` remembered at call entry, and `newTok`
is the token a fresh login would install.  Returns the new token state
and whether `_async_retrieve_token` (a login) was performed. -/
def refreshStep (state observed : Option String) (newTok : String) :
    Option String × Bool :=
  if state = none ∨ state = observed then (some newTok, true) else (state, false)

/-- Serialized execution of `_async_refresh_token` for a list of callers
(the lock serializes the critical sections; the cooperative event loop
has no other interleaving inside them).  Each caller carries the token it
observed at entry; the `k`-th login installs `supply k`.  Returns the
final token and the number of logins performed. -/
def refreshRun (supply : Nat → String) :
    Option String → List (Option String) → Nat → Option String × Nat
  | state, [], k => (state, k)
  | state, obs :: rest, k =>
    match refreshStep state obs (supply k) with
    | (state', true) => refreshRun supply state' rest (k + 1)
    | (state', false) => refreshRun supply state' rest k

/-- A hub response to `POST /action`: `None` or a dict whose
`resultCode` key may be present. -/
structure ActionResponse where
  resultCode : Option String
deriving DecidableEq, Repr

/-! ## Websocket channel (`livisi_websocket.py`) -/

/-- Python `str.removeprefix(p)`: drop `p` from the front of `s` when it
is a leading substring, otherwise return `s` unchanged. -/
def removePre (p s : String) : String :=
  if p.data.isPrefixOf s.data then String.mk (s.data.drop p.data.length) else s

/-- A primitive JSON property value inside an event's property bag. -/
inductive PVal where
  | pBool (b : Bool)
  | pStr (s : String)
  | pInt (n : Int)
deriving DecidableEq, Repr

/-- `LivisiWebsocketEvent` (`livisi_websocket_event.py`).  `ns` renders the
Python field `namespace`; `properties = none` models `None`, and a dict is
an association list. -/
structure WsEvent where
  ns : String
  type : Option String
  source : String
  timestamp : Option String
  properties : Option (List (String × PVal))
deriving DecidableEq, Repr

/-- Outcome of `parse_dataclass(message, LivisiWebsocketEvent)` for one
inbound frame: a `JSONDecodeError` or a decoded event. -/
inductive WsFrame where
  | undecodable
  | event (e : WsEvent)
deriving DecidableEq, Repr

/-- The source normalization of `consumer_handler`:
`removeprefix("/device/")` followed by `removeprefix("/capability/")`. -/
def stripSource (s : String) : String :=
  removePre "/capability/" (removePre "/device/" s)

/-- `LivisiWebsocket.consumer_handler`'s read loop, returning the list of
events dispatched to `on_data` in order.  Undecodable frames and frames
with an empty or absent property bag are skipped and the loop continues;
an exception in `on_data` is caught, so dispatch always proceeds to the
next frame. -/
def processFrames : List WsFrame → List WsEvent
  | [] => []
  | .undecodable :: rest => processFrames rest
  | .event e :: rest =>
    match e.properties with
    | none => processFrames rest
    | some [] => processFrames rest
    | some (_ :: _) => { e with source := stripSource e.source } :: processFrames rest

/-- Observable outcome of one `LivisiWebsocket.connect` attempt. -/
structure ConnectResult where
  dispatched : List WsEvent
  wsOpenAfter : Bool
  onCloseCalls : Nat
  warnedUnexpected : Bool
deriving DecidableEq, Repr

/-- `LivisiWebsocket.connect`.  `connectOk` is whether the websocket
upgrade succeeds (on failure the exception is caught and logged);
`disconnecting` is the `_disconnecting` flag at the time of the
`if not self._disconnecting` check; `frames` are the frames the server
delivers before the connection ends.  In the source, `await on_close()`
is on the unconditional path after the `try`/`except`, so every
(non-cancelled) attempt performs exactly one `on_close` call. -/
def wsConnect (disconnecting connectOk : Bool) (frames : List WsFrame) :
    ConnectResult :=
  if connectOk then
    { dispatched := processFrames frames
      wsOpenAfter := false
      onCloseCalls := 1
      warnedUnexpected := !disconnecting }
  else
    { dispatched := []
      wsOpenAfter := false
      onCloseCalls := 1
      warnedUnexpected := !disconnecting }

/-- Modelled from the spec: `COMMAND_RESTART` is imported from a
`livisi_const` variant that is not part of the sources; the spec only
requires a fixed name for the hub restart command. -/
def COMMAND_RESTART : String := "Restart"

/-- `LivisiConnection._async_send_command`: `reqResult` is the outcome of
`async_send_authorized_request("post", "action", payload)`, where
`.ok none` models a `None` response body. -/
def sendCommand (commandType : String)
    (reqResult : Except LivErr (Option ActionResponse)) : Except LivErr Bool :=
  match reqResult with
  | .ok none => .ok false
  | .ok (some resp) => .ok (resp.resultCode = some "Success")
  | .error .serverDisconnected =>
    -- the SHC restarts without answering the restart command
    if commandType = COMMAND_RESTART then .ok true else .error .serverDisconnected
  | .error e => .error e

/-! ## Device catalog builder (`livisi_connector.async_get_devices`) -/

/-- A JSON value, used for capability configs and the controller state bag. -/
inductive JVal where
  | atom (s : String)
  | obj (fields : List (String × JVal))

mutual

/-- Equality decision for `JVal` (the nested list blocks `deriving`). -/
def JVal.deq : (a b : JVal) → Decidable (a = b)
  | .atom a, .atom b =>
    match decEq a b with
    | isTrue h => isTrue (by rw [h])
    | isFalse h => isFalse (by intro he; cases he; exact h rfl)
  | .atom _, .obj _ => isFalse (by intro h; cases h)
  | .obj _, .atom _ => isFalse (by intro h; cases h)
  | .obj fs, .obj gs =>
    match JVal.deqList fs gs with
    | isTrue h => isTrue (by rw [h])
    | isFalse h => isFalse (by intro he; cases he; exact h rfl)

/-- Equality decision for `JVal` field lists. -/
def JVal.deqList : (fs gs : List (String × JVal)) → Decidable (fs = gs)
  | [], [] => isTrue rfl
  | [], _ :: _ => isFalse (by intro h; cases h)
  | _ :: _, [] => isFalse (by intro h; cases h)
  | (k, v) :: r, (k', v') :: r' =>
    match decEq k k', JVal.deq v v', JVal.deqList r r' with
    | isTrue h1, isTrue h2, isTrue h3 => isTrue (by rw [h1, h2, h3])
    | isFalse h1, _, _ => isFalse (by intro he; cases he; exact h1 rfl)
    | _, isFalse h2, _ => isFalse (by intro he; cases he; exact h2 rfl)
    | _, _, isFalse h3 => isFalse (by intro he; cases he; exact h3 rfl)

end

instance : DecidableEq JVal := JVal.deq

instance : Repr JVal := ⟨fun _ _ => Std.Format.text "JVal"⟩

/-- Association-list lookup modelling Python `dict` access (`d.get(k)` /
`k in d`); insertion conses, so the first hit is the latest write. -/
def alookup {β : Type} : List (String × β) → String → Option β
  | [], _ => none
  | (k, v) :: rest, key => if k = key then some v else alookup rest key

/-- `d[k] = v` on the association-list dict model. -/
def aset {β : Type} (m : List (String × β)) (k : String) (v : β) :
    List (String × β) :=
  (k, v) :: m

/-- Python `set.add` on a list-as-set. -/
def setAdd (s : List String) (x : String) : List String :=
  if x ∈ s then s else s ++ [x]

/-- Fuelled removal of every occurrence of `old`, modelling Python
`s.replace(old, "")` (left-to-right, non-overlapping). -/
def replaceDrop (old : List Char) : Nat → List Char → List Char
  | 0, s => s
  | _ + 1, [] => []
  | n + 1, c :: cs =>
    if old.isPrefixOf (c :: cs) then replaceDrop old n ((c :: cs).drop old.length)
    else c :: replaceDrop old n cs

/-- Python `s.replace(old, "")`. -/
def removeAll (old s : String) : String :=
  String.mk (replaceDrop old.data s.data.length s.data)

/-- One entry of the `GET /message` array: either a bare string (logged
as invalid and skipped) or a dict, of which `parse_messages` reads the
`type`, `timestamp`, `devices` and `source` keys. -/
inductive Msg where
  | strMsg (s : String)
  | objMsg (type : Option String) (timestamp : Option String)
      (devices : Option (List String)) (source : Option String)
deriving DecidableEq, Repr

/-- The four derived-flag sets produced by `parse_messages`. -/
structure MsgSets where
  low_battery_devices : List String
  update_available_devices : List String
  unreachable_devices : List String
  updated_devices : List String
deriving DecidableEq, Repr

/-- Loop body of `LivisiConnection.parse_messages`.  `parseTs` models
`dateutil.parser.parse`, which returns a datetime or raises
(`.error`) — it never returns `None`, so the source's
`if msgtimestamp is None: continue` guard (kept below) cannot fire, and a
raised parse error propagates out of the whole loop. -/
def parseMessagesGo (parseTs : String → Except LivErr Nat) :
    List Msg → MsgSets → Except LivErr MsgSets
  | [], acc => .ok acc
  | .strMsg _ :: rest, acc => parseMessagesGo parseTs rest acc
  | .objMsg ty ts devs src :: rest, acc =>
    match parseTs (ts.getD "") with
    | .error e => .error e
    | .ok t =>
      if (some t : Option Nat).isNone then parseMessagesGo parseTs rest acc
      else
        let deviceIds := (devs.getD []).map (fun d => removePre "/device/" d)
        let deviceIds :=
          if deviceIds = [] then [removeAll "/device/" (src.getD "")] else deviceIds
        let msgtype := ty.getD ""
        let acc' :=
          if msgtype = "DeviceLowBattery" then
            { acc with low_battery_devices := deviceIds.foldl setAdd acc.low_battery_devices }
          else if msgtype = "DeviceUpdateAvailable" then
            { acc with update_available_devices := deviceIds.foldl setAdd acc.update_available_devices }
          else if msgtype = "ProductUpdated" ∨ msgtype = "ShcUpdateCompleted" then
            { acc with updated_devices := deviceIds.foldl setAdd acc.updated_devices }
          else if msgtype = "DeviceUnreachable" then
            { acc with unreachable_devices := deviceIds.foldl setAdd acc.unreachable_devices }
          else acc
        parseMessagesGo parseTs rest acc'

/-- `LivisiConnection.parse_messages`. -/
def parseMessages (parseTs : String → Except LivErr Nat) (messages : List Msg) :
    Except LivErr MsgSets :=
  parseMessagesGo parseTs messages ⟨[], [], [], []⟩

/-- An entry of the `GET /device` array, with the keys the builder reads.
`none` models an absent key. -/
structure RawDevice where
  id : Option String
  type : Option String
  location : Option String
  state : Option JVal
deriving DecidableEq, Repr

/-- An entry of the `GET /capability` array. -/
structure RawCapability where
  id : Option String
  device : Option String
  type : Option String
  config : Option JVal
deriving DecidableEq, Repr

/-- An entry of the `GET /location` array; `name` is
`room.get("config", {}).get("name")`. -/
structure RawRoom where
  id : Option String
  name : Option String
deriving DecidableEq, Repr

/-- The assembled device (`LivisiDevice`), restricted to the fields the
catalog builder computes. -/
structure LDevice where
  id : Option String
  type : Option String
  capabilities : List (String × String)
  capability_config : List (String × JVal)
  room : Option String
  battery_low : Bool
  update_available : Bool
  updated : Bool
  unreachable : Bool
  state : Option JVal
deriving DecidableEq, Repr

/-- The capability loop of `async_get_devices`: builds
`capability_map` (device-id → capability-type → capability-id) and
`capability_config` (device-id → capability-type → config).
`capability["id"]` is a direct index and raises `KeyError` when absent. -/
def buildCaps :
    List RawCapability →
    List (String × List (String × String)) →
    List (String × List (String × JVal)) →
    Except LivErr (List (String × List (String × String)) × List (String × List (String × JVal)))
  | [], cmap, cfg => .ok (cmap, cfg)
  | cap :: rest, cmap, cfg =>
    match cap.device with
    | none => buildCaps rest cmap cfg
    | some dev =>
      let deviceId := removePre "/device/" dev
      let cmap := if (alookup cmap deviceId).isNone then aset cmap deviceId [] else cmap
      let cfg := if (alookup cfg deviceId).isNone then aset cfg deviceId [] else cfg
      match cap.type with
      | none => buildCaps rest cmap cfg
      | some capType =>
        match cap.id with
        | none => .error .keyError
        | some capId =>
          let cmap := aset cmap deviceId (aset ((alookup cmap deviceId).getD []) capType capId)
          let cfg :=
            match cap.config with
            | some c => aset cfg deviceId (aset ((alookup cfg deviceId).getD []) capType c)
            | none => cfg
          buildCaps rest cmap cfg

/-- The room loop of `async_get_devices`: room-id → room name (the stored
name may itself be `None`). -/
def buildRooms : List RawRoom → List (String × Option String)
  | [] => []
  | room :: rest =>
    match room.id with
    | some roomId => aset (buildRooms rest) roomId room.name
    | none => buildRooms rest

/-- `next((x.get("id") for x in devices if x.get("type") in
CONTROLLER_DEVICE_TYPES), None)`. -/
def findControllerId (ctrlTypes : List String) (devices : List RawDevice) :
    Option String :=
  match devices.find? (fun d => match d.type with
    | some t => decide (t ∈ ctrlTypes)
    | none => false) with
  | some d => d.id
  | none => none

/-- The local variable `shc_state` after the best-effort controller state
fetch: `none` models the variable being left unbound (fetch skipped or
fetch raised — the exception is caught but nothing is assigned).  On a v1
controller `shc_state = shc_state["state"]`; a `KeyError`/`TypeError`
there is caught, leaving the previously assigned bag. -/
def shcStateVar (controllerId : Option String) (shcFetch : Except LivErr JVal)
    (isV1 : Bool) : Option JVal :=
  match controllerId with
  | none => none
  | some _ =>
    match shcFetch with
    | .error _ => none
    | .ok bag =>
      if isV1 then
        some (match bag with
          | .obj fields => (alookup fields "state").getD bag
          | .atom s => .atom s)
      else some bag

/-- The assembly loop of `async_get_devices`.  `device["type"]` is a
direct index (`KeyError` on absence); for a controller-typed device
`device["state"] = shc_state` reads the possibly-unbound local
(`UnboundLocalError`, modelled as `.nameError`). -/
def assembleDevices (ctrlTypes : List String) (shcVar : Option JVal)
    (sets : MsgSets) (cmap : List (String × List (String × String)))
    (cfg : List (String × List (String × JVal)))
    (roomMap : List (String × Option String)) :
    List RawDevice → Except LivErr (List LDevice)
  | [] => .ok []
  | d :: rest =>
    let caps := match d.id with
      | some i => (alookup cmap i).getD []
      | none => []
    let cfgs := match d.id with
      | some i => (alookup cfg i).getD []
      | none => []
    let batteryLow := match d.id with
      | some i => decide (i ∈ sets.low_battery_devices)
      | none => false
    let updAvail := match d.id with
      | some i => decide (i ∈ sets.update_available_devices)
      | none => false
    let upd := match d.id with
      | some i => decide (i ∈ sets.updated_devices)
      | none => false
    let unreach := match d.id with
      | some i => decide (i ∈ sets.unreachable_devices)
      | none => false
    let room : Option String := match d.location with
      | some loc => (alookup roomMap (removePre "/location/" loc)).join
      | none => none
    match d.type with
    | none => .error .keyError
    | some ty =>
      let stateResult : Except LivErr (Option JVal) :=
        if ty ∈ ctrlTypes then
          match shcVar with
          | none => .error .nameError
          | some st => .ok (some st)
        else .ok d.state
      match stateResult with
      | .error e => .error e
      | .ok st =>
        match assembleDevices ctrlTypes shcVar sets cmap cfg roomMap rest with
        | .error e => .error e
        | .ok tail =>
          .ok ({ id := d.id, type := some ty, capabilities := caps,
                 capability_config := cfgs, room := room,
                 battery_low := batteryLow, update_available := updAvail,
                 updated := upd, unreachable := unreach, state := st } :: tail)

/-- The inputs of one `async_get_devices` call: the outcomes the hub
gives to the five requests, the timestamp parser, the controller
generation flag and the `CONTROLLER_DEVICE_TYPES` constant. -/
structure CatalogInputs where
  messagesR : Except LivErr (List Msg)
  parseTs : String → Except LivErr Nat
  devicesR : Except LivErr (List RawDevice)
  capsR : Except LivErr (List RawCapability)
  roomsR : Except LivErr (List RawRoom)
  shcStateR : Except LivErr JVal
  isV1 : Bool
  ctrlTypes : List String

/-- `LivisiConnection.async_get_devices`: messages first, then the three
gathered fetches re-raised in order (device, capability, location), then
the best-effort controller state fetch, the lookup maps and the assembly
loop. -/
def asyncGetDevices (inp : CatalogInputs) : Except LivErr (List LDevice) :=
  match inp.messagesR with
  | .error e => .error e
  | .ok messages =>
    match parseMessages inp.parseTs messages with
    | .error e => .error e
    | .ok sets =>
      match inp.devicesR with
      | .error e => .error e
      | .ok devices =>
        match inp.capsR with
        | .error e => .error e
        | .ok capabilities =>
          match inp.roomsR with
          | .error e => .error e
          | .ok rooms =>
            let controllerId := findControllerId inp.ctrlTypes devices
            let shcVar := shcStateVar controllerId inp.shcStateR inp.isV1
            match buildCaps capabilities [] [] with
            | .error e => .error e
            | .ok (cmap, cfg) =>
              assembleDevices inp.ctrlTypes shcVar sets cmap cfg
                (buildRooms rooms) devices

/-! ## Synchronization coordinator (`coordinator.py`) -/

/-- `STATE_PROPERTIES` from `const.py`. -/
def STATE_PROPERTIES : List String :=
  ["onState", "value", "pointTemperature", "setpointTemperature",
   "temperature", "humidity", "luminance", "isOpen", "isSmokeAlarm"]

/-- The f-string rendering of a source id into a dispatcher topic
(`None` renders as the string `"None"`). -/
def optStr (o : Option String) : String := o.getD "None"

/-- Mutable coordinator fields of `LivisiDataUpdateCoordinator`. -/
structure CoordState where
  reconnectAttempts : Nat
  websocketConnected : Bool
  shutdown : Bool
  hassStopping : Bool
  recoverFromError : Bool
  capToDevice : List (String × Option String)
deriving DecidableEq, Repr

/-- A signal sent by the coordinator: a dispatcher topic send or a
`hass.bus` event. -/
inductive Dispatch where
  | reachability (source : String) (value : PVal)
  | stateChange (source : String) (propName : String) (value : PVal)
  | busEvent (deviceId : String) (evType : String)
  | livisiEvent (source : String) (deviceId : String) (evType : String)
deriving DecidableEq, Repr

/-- Python truthiness of the looked-up owning device id
(`if device_id:`): false for a missing key, `None`, or `""`. -/
def truthyId (o : Option (Option String)) : Option String :=
  match o with
  | some (some s) => if s = "" then none else some s
  | _ => none

/-- `publish_state` for one property name: dispatch unless the property
is absent (`data is None`). -/
def publishState (e : WsEvent) (propName : String) : List Dispatch :=
  match alookup (e.properties.getD []) propName with
  | some v => [.stateChange e.source propName v]
  | none => []

/-- `LivisiDataUpdateCoordinator.on_websocket_data`: any data resets the
consecutive-failure counter, then the event is classified and fanned
out. -/
def onWebsocketData (s : CoordState) (e : WsEvent) : CoordState × List Dispatch :=
  let s' := { s with reconnectAttempts := 0 }
  let props := e.properties.getD []
  if e.type = some "ButtonPressed" then
    match truthyId (alookup s'.capToDevice e.source) with
    | some did =>
      (s', [.busEvent did "button_pressed", .livisiEvent e.source did "button_pressed"])
    | none => (s', [])
  else if e.type = some "MotionDetected" then
    match truthyId (alookup s'.capToDevice e.source) with
    | some did =>
      (s', [.busEvent did "motion_detected", .livisiEvent e.source did "motion_detected"])
    | none => (s', [])
  else if e.type = some "StateChanged" then
    let reach := match alookup props "isReachable" with
      | some v => [Dispatch.reachability e.source v]
      | none => []
    (s', reach ++ STATE_PROPERTIES.foldr (fun p acc => publishState e p ++ acc) [])
  else (s', [])

/-- Observable outcome of one `_async_update_data` poll cycle. -/
structure UpdateResult where
  dispatches : List Dispatch
  state : CoordState
  armWs : Bool
  outcome : Except LivErr (List LDevice)
deriving Repr

/-- The success path of `LivisiDataUpdateCoordinator.async_get_devices`:
rebuild the capability→device map, re-send reachability for devices the
hub reports unreachable (or for all, when recovering from a failed
cycle), clear the recovery flag, and re-arm the websocket when it is not
connected. -/
def coordPollSuccess (s : CoordState) (devs : List LDevice) : UpdateResult :=
  let capMap := devs.foldl
    (fun m d => d.capabilities.foldl (fun m2 kv => aset m2 kv.2 d.id) m) []
  let dispatches := devs.foldr
    (fun d acc =>
      if d.unreachable || s.recoverFromError then
        .reachability (optStr d.id) (.pBool !d.unreachable) :: acc
      else acc) []
  { dispatches := dispatches
    state := { s with capToDevice := capMap, recoverFromError := false }
    armWs := !s.websocketConnected
    outcome := .ok devs }

/-- `LivisiDataUpdateCoordinator._async_update_data`: delegate to the
catalog fetch; on any exception mark every previously-known device
unreachable, set the recovery flag and surface `UpdateFailed`. -/
def coordUpdateData (known : List String) (s : CoordState)
    (r : Except LivErr (List LDevice)) : UpdateResult :=
  match r with
  | .error _ =>
    { dispatches := known.map (fun d => .reachability d (.pBool false))
      state := { s with recoverFromError := true }
      armWs := false
      outcome := .error .updateFailed }
  | .ok devs => coordPollSuccess s devs

/-- What one `ws_loop` iteration decides to do next. -/
inductive IterAction where
  | retry
  | stopShutdown
  | stopAwaitPoll
deriving DecidableEq, Repr

/-- One iteration of `LivisiDataUpdateCoordinator.ws_loop`: connect
(`websocket_connected = True`), receive `frames` data frames (each one
runs `on_websocket_data`, resetting the failure counter), then the
connection ends (server close or error reach the same code); after the
shutdown check the counter is incremented and compared against 2. -/
def wsLoopIter (s : CoordState) (frames : Nat) : CoordState × IterAction :=
  let s1 := { s with websocketConnected := true }
  let s2 := if frames > 0 then { s1 with reconnectAttempts := 0 } else s1
  let s3 := { s2 with websocketConnected := false }
  if s3.shutdown || s3.hassStopping then
    ({ s3 with reconnectAttempts := 0 }, .stopShutdown)
  else
    let a := s3.reconnectAttempts + 1
    let s4 := { s3 with reconnectAttempts := a }
    if a ≥ 2 then (s4, .stopAwaitPoll) else (s4, .retry)

/-- How a run of `ws_loop` ended. -/
inductive WsExit where
  | shutdownStop
  | awaitPoll
  | outcomesExhausted
deriving DecidableEq, Repr

/-- `ws_loop` over a list of connection outcomes (data-frame counts of
successive connection attempts). -/
def wsLoop (s : CoordState) : List Nat → CoordState × WsExit
  | [] => (s, .outcomesExhausted)
  | f :: rest =>
    match wsLoopIter s f with
    | (s', .retry) => wsLoop s' rest
    | (s', .stopShutdown) => (s', .shutdownStop)
    | (s', .stopAwaitPoll) => (s', .awaitPoll)

/-! ## Concrete example inputs used by witnesses and counterexamples -/

/-- A poll cycle whose capability fetch fails. -/
def c2FailInputs : CatalogInputs :=
  { messagesR := .ok []
    parseTs := fun _ => .ok 0
    devicesR := .ok []
    capsR := .error .shcUnreachable
    roomsR := .ok []
    shcStateR := .ok (.obj [])
    isV1 := false
    ctrlTypes := ["SHC"] }

/-- Coordinator state with two known devices' worth of history and a
live websocket. -/
def c2State : CoordState :=
  { reconnectAttempts := 0, websocketConnected := true, shutdown := false
    hassStopping := false, recoverFromError := false, capToDevice := [] }

/-- A healthy coordinator state before any websocket failure. -/
def c4ExState : CoordState :=
  { reconnectAttempts := 0, websocketConnected := false, shutdown := false
    hassStopping := false, recoverFromError := false, capToDevice := [] }

/-- Coordinator state right after `ws_loop` stopped at two consecutive
failures (counter at 2, recovery flag set). -/
def c4StoppedState : CoordState :=
  { reconnectAttempts := 2, websocketConnected := false, shutdown := false
    hassStopping := false, recoverFromError := true, capToDevice := [] }

/-- A catalog cycle with a controller device present whose own state
fetch fails. -/
def c5Inputs : CatalogInputs :=
  { messagesR := .ok []
    parseTs := fun _ => .ok 0
    devicesR := .ok [{ id := some "shc1", type := some "SHC", location := none,
                       state := none }]
    capsR := .ok []
    roomsR := .ok []
    shcStateR := .error .shcUnreachable
    isV1 := false
    ctrlTypes := ["SHC"] }

/-- A timestamp parser in the image of `dateutil.parser.parse`: returns
a datetime for the one well-formed stamp and raises on everything else. -/
def c6ParseTs : String → Except LivErr Nat := fun s =>
  if s = "2024-01-01T00:00:00Z" then .ok 1704067200 else .error .parserError

/-- A low-battery message with a parseable timestamp. -/
def c6MsgGood1 : Msg :=
  .objMsg (some "DeviceLowBattery") (some "2024-01-01T00:00:00Z")
    (some ["/device/d1"]) none

/-- A message whose timestamp cannot be parsed. -/
def c6MsgBad : Msg :=
  .objMsg (some "DeviceLowBattery") (some "not a timestamp")
    (some ["/device/d2"]) none

/-- An unreachable-device message with a parseable timestamp. -/
def c6MsgGood2 : Msg :=
  .objMsg (some "DeviceUnreachable") (some "2024-01-01T00:00:00Z")
    (some ["/device/d3"]) none

/-! ## Helper lemmas -/

theorem isPrefixOf_self_append (p q : List Char) :
    List.isPrefixOf p (p ++ q) = true := by
  induction p with
  | nil => cases q <;> rfl
  | cons a as ih => simp [List.isPrefixOf, ih]

theorem removePre_append (p q : String) : removePre p (p ++ q) = q := by
  have hd : (p ++ q).data = p.data ++ q.data := rfl
  unfold removePre
  rw [hd, isPrefixOf_self_append]
  simp only [if_true]
  rw [List.drop_left]

theorem removePre_no (p s : String)
    (h : List.isPrefixOf p.data s.data = false) : removePre p s = s := by
  simp [removePre, h]

/-! ## Claims -/

/-- C1: an authorized request whose first response body carries error
code 2007 triggers exactly one refresh and one retry of the original
request; if the retried response also carries an error code, the surfaced
failure is `ErrorCode` with the retry's code; any other error code in a
first response is surfaced immediately as `ErrorCode(n)` without a retry. -/
theorem c1_error_2007_retry_once :
    (∀ send2 : Except LivErr HubResponse,
      (asyncRequest false (.ok (.body (some 2007))) send2).refreshes = 1 ∧
      (asyncRequest false (.ok (.body (some 2007))) send2).sends = 2) ∧
    (∀ n : Int,
      (asyncRequest false (.ok (.body (some 2007))) (.ok (.body (some n)))).outcome =
        .error (.errorCode n)) ∧
    (∀ (te : Bool) (n : Int) (send2 : Except LivErr HubResponse), n ≠ 2007 →
      (asyncRequest te (.ok (.body (some n))) send2).outcome = .error (.errorCode n) ∧
      (asyncRequest te (.ok (.body (some n))) send2).sends = 1) := by
  refine ⟨?_, ?_, ?_⟩
  · intro send2
    rcases send2 with e | r2
    · simp [asyncRequest, HubResponse.errorcodeOf]
    · rcases r2 with _ | ec
      · simp [asyncRequest, HubResponse.errorcodeOf]
      · rcases ec with _ | n <;> simp [asyncRequest, HubResponse.errorcodeOf]
  · intro n
    simp [asyncRequest, HubResponse.errorcodeOf]
  · intro te n send2 hn
    constructor <;> simp [asyncRequest, HubResponse.errorcodeOf, hn]

/-- Witness for C1 at concrete inputs: retry error 1005 surfaces as 1005
after one refresh and two sends; a first-response 2009 fails immediately
with one send. -/
theorem c1_error_2007_retry_once_witness :
    (asyncRequest false (.ok (.body (some 2007))) (.ok (.body (some 1005)))).outcome =
      .error (.errorCode 1005) ∧
    (asyncRequest false (.ok (.body (some 2007))) (.ok (.body (some 1005)))).refreshes = 1 ∧
    (asyncRequest false (.ok (.body (some 2007))) (.ok (.body (some 1005)))).sends = 2 ∧
    (asyncRequest false (.ok (.body (some 2009))) (.ok .noBody)).outcome =
      .error (.errorCode 2009) ∧
    (asyncRequest false (.ok (.body (some 2009))) (.ok .noBody)).sends = 1 :=
  ⟨c1_error_2007_retry_once.2.1 1005,
   (c1_error_2007_retry_once.1 (.ok (.body (some 1005)))).1,
   (c1_error_2007_retry_once.1 (.ok (.body (some 1005)))).2,
   (c1_error_2007_retry_once.2.2 false 2009 (.ok .noBody) (by decide)).1,
   (c1_error_2007_retry_once.2.2 false 2009 (.ok .noBody) (by decide)).2⟩

/-- C7 (counterexample): with the `_disconnecting` flag set by a
caller-initiated `disconnect()`, the `connect` attempt still performs an
`on_close` call — the claimed "on_close is not invoked at all" case does
not exist in the code (only the warning log is suppressed). -/
theorem c7_counterexample : (wsConnect true true []).onCloseCalls ≠ 0 := by decide

/-- C7 (amended): every connect attempt of the event channel invokes
`on_close` exactly once before returning to the caller, whether or not
the close was caller-initiated; the `_disconnecting` flag only
suppresses the unexpected-disconnect warning. -/
theorem c7_on_close_always_once :
    ∀ (disconnecting connectOk : Bool) (frames : List WsFrame),
      (wsConnect disconnecting connectOk frames).onCloseCalls = 1 ∧
      (wsConnect disconnecting connectOk frames).warnedUnexpected = !disconnecting := by
  intro d c f
  cases c <;> simp [wsConnect]

/-- C8: an inbound frame decoding to a StateChanged event with an empty
or absent property bag dispatches nothing, and the read loop continues
with the remaining frames. -/
theorem c8_empty_props_dropped :
    ∀ (e : WsEvent) (rest : List WsFrame),
      e.type = some "StateChanged" →
      (e.properties = none ∨ e.properties = some []) →
      processFrames (.event e :: rest) = processFrames rest := by
  intro e rest _ hp
  rcases hp with h | h <;> simp [processFrames, h]

/-- Witness for C8: a StateChanged frame with `properties = None` is
dropped while the following frame is still dispatched. -/
theorem c8_empty_props_dropped_witness :
    processFrames
      [.event ⟨"core", some "StateChanged", "/capability/c1", none, none⟩,
       .event ⟨"core", some "StateChanged", "c2", none, some [("onState", .pBool true)]⟩] =
      [⟨"core", some "StateChanged", "c2", none, some [("onState", .pBool true)]⟩] := by
  rw [c8_empty_props_dropped _ _ rfl (Or.inl rfl)]
  decide

/-- C9: before dispatch, a leading "/device/" then a leading
"/capability/" URL-style marker is stripped from a forwarded event's
source, so a source of "/capability/" followed by a bare id (or
"/device/" followed by a bare id) is delivered as the bare id. -/
theorem c9_source_marker_stripped :
    ∀ (ns : String) (ty tsv : Option String) (id : String)
      (props : List (String × PVal)),
      props ≠ [] →
      List.isPrefixOf "/capability/".data id.data = false →
      processFrames [.event ⟨ns, ty, "/capability/" ++ id, tsv, some props⟩] =
        [⟨ns, ty, id, tsv, some props⟩] ∧
      processFrames [.event ⟨ns, ty, "/device/" ++ id, tsv, some props⟩] =
        [⟨ns, ty, id, tsv, some props⟩] := by
  intro ns ty tsv id props hne h2
  match props, hne with
  | p :: ps, _ =>
    constructor
    · have hs : stripSource ("/capability/" ++ id) = id := by
        unfold stripSource
        rw [removePre_no "/device/" ("/capability/" ++ id) rfl, removePre_append]
      simp [processFrames, hs]
    · have hs : stripSource ("/device/" ++ id) = id := by
        unfold stripSource
        rw [removePre_append, removePre_no "/capability/" id h2]
      simp [processFrames, hs]

/-- Witness for C9: the round-trip of the claim — a push event sourced
at "/capability/abc123" is dispatched with source "abc123". -/
theorem c9_source_marker_stripped_witness :
    processFrames
      [.event ⟨"core", some "StateChanged", "/capability/abc123", none,
               some [("onState", .pBool true)]⟩] =
      [⟨"core", some "StateChanged", "abc123", none, some [("onState", .pBool true)]⟩] :=
  (c9_source_marker_stripped "core" (some "StateChanged") none "abc123"
    [("onState", .pBool true)] (by decide) (by decide)).1

/-- C10: a command returns true exactly when the hub's response carries
`resultCode = "Success"` or the command was the restart command and the
server disconnected; a `None` response yields false rather than an
exception. -/
theorem c10_command_success_iff :
    ∀ (ct : String) (req : Except LivErr (Option ActionResponse)),
      (sendCommand ct req = .ok true ↔
        ((∃ r, req = .ok (some r) ∧ r.resultCode = some "Success") ∨
          (req = .error .serverDisconnected ∧ ct = COMMAND_RESTART))) ∧
      sendCommand ct (.ok none) = .ok false := by
  intro ct req
  refine ⟨?_, rfl⟩
  rcases req with e | o
  · by_cases hct : ct = COMMAND_RESTART <;> cases e <;> simp [sendCommand, hct]
  · rcases o with _ | r <;> simp [sendCommand]

/-- Witness for C10: a Success response yields true, a None response
yields false, and a server disconnect during restart yields true. -/
theorem c10_command_success_iff_witness :
    sendCommand "SetState" (.ok (some ⟨some "Success"⟩)) = .ok true ∧
    sendCommand "SetState" (.ok none) = .ok false ∧
    sendCommand COMMAND_RESTART (.error .serverDisconnected) = .ok true :=
  ⟨((c10_command_success_iff "SetState" (.ok (some ⟨some "Success"⟩))).1).mpr
      (Or.inl ⟨⟨some "Success"⟩, rfl, rfl⟩),
   (c10_command_success_iff "SetState" (.ok none)).2,
   ((c10_command_success_iff COMMAND_RESTART (.error .serverDisconnected)).1).mpr
      (Or.inr ⟨rfl, rfl⟩)⟩

/-- C2: when any of the three gathered fetches (devices, capabilities,
locations) fails, the whole catalog call fails — no partial device list
is returned — and the coordinator's update dispatches a reachability
signal with value false for every previously-known device id before
surfacing `UpdateFailed`. -/
theorem c2_fetch_failure_all_unreachable :
    ∀ (inp : CatalogInputs) (known : List String) (s : CoordState),
      ((∃ er, inp.devicesR = .error er) ∨ (∃ er, inp.capsR = .error er) ∨
        (∃ er, inp.roomsR = .error er)) →
      (∃ er, asyncGetDevices inp = .error er) ∧
      (coordUpdateData known s (asyncGetDevices inp)).dispatches =
        known.map (fun d => .reachability d (.pBool false)) ∧
      (coordUpdateData known s (asyncGetDevices inp)).outcome = .error .updateFailed := by
  intro inp known s h
  have herr : ∃ er, asyncGetDevices inp = .error er := by
    cases hm : inp.messagesR with
    | error e => exact ⟨e, by simp [asyncGetDevices, hm]⟩
    | ok msgs =>
      cases hp : parseMessages inp.parseTs msgs with
      | error e => exact ⟨e, by simp [asyncGetDevices, hm, hp]⟩
      | ok sets =>
        rcases h with ⟨er, hdv⟩ | ⟨er, hcp⟩ | ⟨er, hrm⟩
        · exact ⟨er, by simp [asyncGetDevices, hm, hp, hdv]⟩
        · cases hdv : inp.devicesR with
          | error e2 => exact ⟨e2, by simp [asyncGetDevices, hm, hp, hdv]⟩
          | ok devs => exact ⟨er, by simp [asyncGetDevices, hm, hp, hdv, hcp]⟩
        · cases hdv : inp.devicesR with
          | error e2 => exact ⟨e2, by simp [asyncGetDevices, hm, hp, hdv]⟩
          | ok devs =>
            cases hcp : inp.capsR with
            | error e3 => exact ⟨e3, by simp [asyncGetDevices, hm, hp, hdv, hcp]⟩
            | ok caps => exact ⟨er, by simp [asyncGetDevices, hm, hp, hdv, hcp, hrm]⟩
  obtain ⟨er, heq⟩ := herr
  refine ⟨⟨er, heq⟩, ?_, ?_⟩ <;> rw [heq] <;> rfl

/-- Witness for C2: a failed capability fetch with two known devices
dispatches unreachable for both and surfaces `UpdateFailed`. -/
theorem c2_fetch_failure_all_unreachable_witness :
    (∃ er, asyncGetDevices c2FailInputs = .error er) ∧
    (coordUpdateData ["d1", "d2"] c2State (asyncGetDevices c2FailInputs)).dispatches =
      [.reachability "d1" (.pBool false), .reachability "d2" (.pBool false)] ∧
    (coordUpdateData ["d1", "d2"] c2State (asyncGetDevices c2FailInputs)).outcome =
      .error .updateFailed := by
  have h := c2_fetch_failure_all_unreachable c2FailInputs ["d1", "d2"] c2State
    (Or.inr (Or.inl ⟨.shcUnreachable, rfl⟩))
  exact ⟨h.1, by rw [h.2.1]; rfl, h.2.2⟩

/-- The refresh loop performs no login for any caller whose observed
token has already been replaced by a different, non-None token. -/
theorem refreshRun_frozen (supply : Nat → String) (e : String) :
    ∀ (callers : List (Option String)) (st : Option String) (k : Nat),
      st ≠ none → st ≠ some e → (∀ o ∈ callers, o = some e) →
      refreshRun supply st callers k = (st, k) := by
  intro callers
  induction callers with
  | nil => intro st k _ _ _; rfl
  | cons c rest ih =>
    intro st k h1 h2 hall
    have hc : c = some e := hall c (by simp)
    subst hc
    have hstep : refreshStep st (some e) (supply k) = (st, false) := by
      simp [refreshStep, h1, h2]
    simp only [refreshRun, hstep]
    exact ih st k h1 h2 (fun o ho => hall o (List.mem_cons_of_mem _ ho))

/-- C3: with the stored credential expired (all concurrent callers
observed the same expired token) the serialized refresh sections perform
exactly one login, provided each fresh login yields a token different
from the expired one; and a caller that acquires the lock after the
token was already replaced (state differs from what it observed, and is
not None) performs no login at all. -/
theorem c3_single_flight_refresh :
    (∀ (supply : Nat → String) (e : String) (callers : List (Option String)),
      callers ≠ [] → (∀ o ∈ callers, o = some e) → (∀ k, supply k ≠ e) →
      (refreshRun supply (some e) callers 0).2 = 1) ∧
    (∀ (supply : Nat → String) (st obs : Option String)
      (rest : List (Option String)) (k : Nat),
      st ≠ none → st ≠ obs →
      refreshRun supply st (obs :: rest) k = refreshRun supply st rest k) := by
  constructor
  · intro supply e callers hne hall hsup
    match callers, hne with
    | c :: rest, _ =>
      have hc : c = some e := hall c (by simp)
      subst hc
      have hstep : refreshStep (some e) (some e) (supply 0) = (some (supply 0), true) := by
        simp [refreshStep]
      simp only [refreshRun, hstep]
      rw [refreshRun_frozen supply e rest (some (supply 0)) 1 (by simp)
        (by simpa using hsup 0) (fun o ho => hall o (List.mem_cons_of_mem _ ho))]
  · intro supply st obs rest k h1 h2
    have hstep : refreshStep st obs (supply k) = (st, false) := by
      simp [refreshStep, h1, h2]
    simp only [refreshRun, hstep]

/-- Witness for C3: three concurrent callers that all observed the same
expired token produce exactly one login; a later caller seeing the fresh
token performs none. -/
theorem c3_single_flight_refresh_witness :
    (refreshRun (fun _ => "tok2") (some "tok1")
      [some "tok1", some "tok1", some "tok1"] 0).2 = 1 ∧
    refreshRun (fun _ => "tok2") (some "tok2") [some "tok1"] 1 =
      refreshRun (fun _ => "tok2") (some "tok2") [] 1 :=
  ⟨c3_single_flight_refresh.1 (fun _ => "tok2") "tok1"
      [some "tok1", some "tok1", some "tok1"] (by decide) (by decide)
      (fun _ => show ("tok2" : String) ≠ "tok1" by decide),
   c3_single_flight_refresh.2 (fun _ => "tok2") (some "tok2") (some "tok1") [] 1
      (by decide) (by decide)⟩

/-- C4 (counterexample): after the supervision loop stopped at two
consecutive failures, a successful poll re-arms the websocket but leaves
the consecutive-failure counter at 2 — the poll does not reset it to 0
as the claim states (only a received data frame, or shutdown, resets it). -/
theorem c4_counterexample :
    (coordUpdateData ["d1"] c4StoppedState (.ok [])).armWs = true ∧
    (coordUpdateData ["d1"] c4StoppedState (.ok [])).state.reconnectAttempts ≠ 0 := by
  decide

/-- C4 (amended): after a first unexpected close the loop retries once
immediately (counter 0 → 1, action retry); two consecutive zero-frame
failures stop the loop (counter 2, await poll); `on_websocket_data`
resets the counter to 0 on any data frame; and a successful poll with
the websocket down re-arms the channel while leaving the counter
unchanged. -/
theorem c4_reconnect_policy :
    (∀ s : CoordState, s.reconnectAttempts = 0 → s.shutdown = false →
      s.hassStopping = false →
      wsLoopIter s 0 =
        ({ s with websocketConnected := false, reconnectAttempts := 1 }, .retry)) ∧
    (∀ s : CoordState, s.reconnectAttempts = 0 → s.shutdown = false →
      s.hassStopping = false →
      (wsLoop s [0, 0]).2 = .awaitPoll ∧ (wsLoop s [0, 0]).1.reconnectAttempts = 2) ∧
    (∀ (s : CoordState) (e : WsEvent),
      (onWebsocketData s e).1.reconnectAttempts = 0) ∧
    (∀ (s : CoordState) (devs : List LDevice), s.websocketConnected = false →
      (coordPollSuccess s devs).armWs = true ∧
      (coordPollSuccess s devs).state.reconnectAttempts = s.reconnectAttempts) := by
  refine ⟨?_, ?_, ?_, ?_⟩
  · intro s h0 hsd hhs
    obtain ⟨ra, wc, sd, hst, rec, cm⟩ := s
    simp only at h0 hsd hhs
    subst h0; subst hsd; subst hhs
    simp [wsLoopIter]
  · intro s h0 hsd hhs
    obtain ⟨ra, wc, sd, hst, rec, cm⟩ := s
    simp only at h0 hsd hhs
    subst h0; subst hsd; subst hhs
    simp [wsLoop, wsLoopIter]
  · intro s e
    unfold onWebsocketData
    (repeat' split) <;>
      (rcases htr : truthyId (alookup s.capToDevice e.source) with _ | d <;> simp [htr])
  · intro s devs h
    simp [coordPollSuccess, h]

/-- Witness for C4 (amended) at a concrete healthy state. -/
theorem c4_reconnect_policy_witness :
    wsLoopIter c4ExState 0 =
      ({ c4ExState with websocketConnected := false, reconnectAttempts := 1 }, .retry) ∧
    (wsLoop c4ExState [0, 0]).2 = .awaitPoll ∧
    (onWebsocketData c4StoppedState
      ⟨"core", some "StateChanged", "c1", none,
       some [("onState", .pBool true)]⟩).1.reconnectAttempts = 0 ∧
    (coordPollSuccess c4ExState []).armWs = true :=
  ⟨c4_reconnect_policy.1 c4ExState rfl rfl rfl,
   (c4_reconnect_policy.2.1 c4ExState rfl rfl rfl).1,
   c4_reconnect_policy.2.2.1 c4StoppedState _,
   (c4_reconnect_policy.2.2.2 c4ExState [] rfl).1⟩

/-- C5 (code bug): with a controller device present and its separate
state fetch failing, the `except` clause leaves the local `shc_state`
unbound, so `device["state"] = shc_state` raises `UnboundLocalError` and
the whole catalog fails, instead of tolerating the failure; the same
input with the fetch succeeding returns the full device list including
the controller. -/
theorem c5_controller_state_fetch_eval :
    asyncGetDevices c5Inputs = .error .nameError ∧
    asyncGetDevices { c5Inputs with shcStateR := .ok (.obj []) } =
      .ok [{ id := some "shc1", type := some "SHC", capabilities := [],
             capability_config := [], room := none, battery_low := false,
             update_available := false, updated := false, unreachable := false,
             state := some (.obj []) }] := by
  constructor <;> rfl

/-- C6 (code bug): a message whose timestamp cannot be parsed makes the
whole `parse_messages` call raise (`dateutil.parser.parse` raises rather
than returning `None`, so the `is None` skip-guard is dead code) and the
remaining messages are never processed; without the bad message the same
messages parse into the expected derived-flag sets. -/
theorem c6_unparseable_timestamp_eval :
    parseMessages c6ParseTs [c6MsgGood1, c6MsgBad, c6MsgGood2] =
      .error .parserError ∧
    parseMessages c6ParseTs [c6MsgGood1, c6MsgGood2] =
      .ok ⟨["d1"], [], ["d3"], []⟩ := by
  constructor <;> rfl

end Livisi
